import Mathlib

/-!
Shallow embedding of the TaskFlow conversation / image-attachment core:
the store-backed half of src/lib/db.ts, the tool handlers of
src/app/api/chat/route.ts, and src/app/api/generate-image/route.ts.

External I/O (HTTP fetch to the image service, the task store, the LLM) is
passed in as explicit oracle arguments, so every function here is a pure,
executable Lean definition.  JavaScript string operations are embedded as
structurally recursive functions on the underlying character lists (JS
operates on UTF-16 code units; all payloads involved in the claims - base64
bodies, ISO date strings, media types - are ASCII, where the two views
coincide).
-/

namespace TaskFlow

/-! ### JavaScript string primitives -/

/-- Substring occurrence test on character lists; the recursion mirrors the
semantics of JS String.prototype.includes (empty needle always found). -/
def containsSub (hay needle : List Char) : Bool :=
  match hay with
  | [] => needle.isEmpty
  | _ :: t => needle.isPrefixOf hay || containsSub t needle

/-- JS hay.includes(needle). -/
def jsIncludes (hay needle : String) : Bool :=
  containsSub hay.data needle.data

/-- JS s.toLowerCase() (character-wise lowering; ASCII-faithful). -/
def jsToLower (s : String) : String :=
  ⟨s.data.map Char.toLower⟩

/-- JS s.startsWith(p). -/
def jsStartsWith (s p : String) : Bool :=
  p.data.isPrefixOf s.data

/-- JS a < b on strings: lexicographic comparison of code units. -/
def jsStrLt (a b : String) : Bool :=
  decide (a.data < b.data)

/-- a ≤ b for the same total order (used for the ascending comparator sort). -/
def jsStrLe (a b : String) : Bool :=
  !jsStrLt b a

/-- JS s.split("/") on the character list. -/
def splitOnSlash : List Char → List (List Char)
  | [] => [[]]
  | c :: rest =>
    if c = '/' then [] :: splitOnSlash rest
    else
      match splitOnSlash rest with
      | [] => [[c]]
      | h :: t => (c :: h) :: t

/-! ### Data model (src/lib/types.ts and the Task row shape of db.ts) -/

inductive Priority
  | low
  | medium
  | high
  deriving DecidableEq

inductive Status
  | todo
  | in_progress
  | done
  deriving DecidableEq

structure TaskAttachment where
  name : String
  type : String
  dataUrl : String
  deriving DecidableEq

structure Task where
  id : String
  title : String
  description : Option String
  priority : Priority
  status : Status
  dueDate : Option String
  attachments : List TaskAttachment
  createdAt : String
  updatedAt : String
  deriving DecidableEq

/-! ### The task store (the get/set/remove contract behind db.ts)

The concrete backends (MemoryStore, LibSQLStore, SupabaseStore,
EdgeConfigStore) all expose a map from task id to task; we model that map
directly. -/

def Store : Type := String → Option Task

/-- store.set: upsert keyed by the task's id. -/
def storeSet (s : Store) (t : Task) : Store :=
  fun i => if i = t.id then some t else s i

def emptyStore : Store := fun _ => none

/-! ### db.ts CRUD (the store-backed definitions, db.ts lines 513-607) -/

structure CreateTaskInput where
  title : String
  description : Option String
  priority : Option Priority
  dueDate : Option String
  attachments : Option (List TaskAttachment)
  deriving DecidableEq

/-- db.createTask: builds the stored task record.  randomUUID() and now()
are impure in the source and are passed in as arguments. -/
def createTask (input : CreateTaskInput) (id now : String) : Task :=
  { id := id
    title := input.title
    description := input.description
    priority := input.priority.getD .medium
    status := .todo
    dueDate := input.dueDate
    attachments := input.attachments.getD []
    createdAt := now
    updatedAt := now }

/-- The Partial update record accepted by db.updateTask
(Partial of Task minus id and createdAt; a missing key is none).
The updatedAt key is accepted by the TS type but always overwritten. -/
structure TaskUpdates where
  title : Option String
  description : Option String
  priority : Option Priority
  status : Option Status
  dueDate : Option String
  attachments : Option (List TaskAttachment)
  updatedAt : Option String
  deriving DecidableEq

/-- An updates record with every key absent. -/
def noUpdates : TaskUpdates :=
  { title := none, description := none, priority := none, status := none
    dueDate := none, attachments := none, updatedAt := none }

/-- The object spread in db.updateTask:
updated = spread of existing, then updates, then updatedAt := now(). -/
def applyUpdates (t : Task) (u : TaskUpdates) (now : String) : Task :=
  { id := t.id
    title := u.title.getD t.title
    description := u.description.orElse fun _ => t.description
    priority := u.priority.getD t.priority
    status := u.status.getD t.status
    dueDate := u.dueDate.orElse fun _ => t.dueDate
    attachments := u.attachments.getD t.attachments
    createdAt := t.createdAt
    updatedAt := now }

/-- db.updateTask (db.ts lines 554-564): read the existing task, return null
(and write nothing) if absent, otherwise merge and store.set the result.
Returns the reported task together with the store after the call. -/
def updateTask (store : Store) (id : String) (u : TaskUpdates) (now : String) :
    Option Task × Store :=
  match store id with
  | none => (none, store)
  | some existing =>
    let updated := applyUpdates existing u now
    (some updated, storeSet store updated)

/-- Stable insertion of an element into a comparator-sorted list; together
with sortLe this models the (stable, ascending) Array.prototype.sort. -/
def insertLe (le : Task → Task → Bool) (a : Task) : List Task → List Task
  | [] => [a]
  | b :: bs => if le a b then a :: b :: bs else b :: insertLe le a bs

def sortLe (le : Task → Task → Bool) : List Task → List Task
  | [] => []
  | a :: as => insertLe le a (sortLe le as)

/-- The filter of db.getOverdueTasks: t.dueDate && t.dueDate < today &&
(t.status === "todo" || t.status === "in_progress").  JS truthiness makes a
present-but-empty dueDate string behave exactly like a missing one. -/
def overdueP (today : String) (t : Task) : Bool :=
  (match t.dueDate with
   | some d => !(d == "") && jsStrLt d today
   | none => false) &&
  (t.status == .todo || t.status == .in_progress)

/-- db.getOverdueTasks (db.ts lines 570-580).  getAllTasks() is impure; its
result is the all argument.  The sort comparator is
(a.dueDate ?? "").localeCompare(b.dueDate ?? ""). -/
def getOverdueTasks (today : String) (all : List Task) : List Task :=
  sortLe (fun a b => jsStrLe (a.dueDate.getD "") (b.dueDate.getD ""))
    (all.filter (overdueP today))

/-! ### Chat messages (the UIMessage parts inspected by chat/route.ts)

The route inspects incoming parts duck-typed: a part is treated as a file
part when part.type === "file", and as a generate_image tool part when
part.type === "tool-generate_image" or part.toolName === "generate_image".
Each constructor below carries exactly the fields the route reads; fields
that may be absent in the JSON are Options. -/

inductive MessagePart
  | text (s : String)
  | file (mediaType : Option String) (url : Option String)
      (filename : Option String) (name : Option String)
  | toolPart (ptype : String) (toolName : Option String) (state : Option String)
      (outSuccess : Option Bool) (outPrompt : Option String)
  | other
  deriving DecidableEq

structure UIMessage where
  parts : List MessagePart
  deriving DecidableEq

def allParts (messages : List UIMessage) : List MessagePart :=
  messages.flatMap fun m => m.parts

/-- fp.mediaType.split("/")[1] ?? "png" (the ?? fires only when index 1 is
absent; an empty piece is kept). -/
def fileExt (mt : String) : String :=
  (((splitOnSlash mt.data).map fun l => (⟨l⟩ : String))[1]?).getD "png"

/-- One iteration of extractChatImages (chat/route.ts lines 32-45): a file
part is collected when its mediaType starts with "image/" and its url is
present and truthy (JS: a present empty string is falsy). -/
def partImage : MessagePart → Option TaskAttachment
  | .file (some mt) (some u) fn nm =>
    if jsStartsWith mt "image/" && !(u == "") then
      some { name := fn.getD (nm.getD ("image." ++ fileExt mt))
             type := mt
             dataUrl := u }
    else none
  | _ => none

/-- extractChatImages (chat/route.ts lines 28-49): the nested message/part
loops push in order, which is filterMap over the flattened parts. -/
def extractChatImages (messages : List UIMessage) : List TaskAttachment :=
  (allParts messages).filterMap partImage

/-- One iteration of extractGeneratedImagePrompts (chat/route.ts lines
57-74): a tool part is collected when it is a generate_image part in state
"output-available" whose output has success === true and a truthy string
prompt (JS: an empty-string prompt is falsy and skipped). -/
def partPrompt : MessagePart → Option String
  | .toolPart ptype toolName state outSuccess outPrompt =>
    if (ptype == "tool-generate_image" || toolName == some "generate_image")
        && state == some "output-available" && outSuccess == some true then
      match outPrompt with
      | some p => if p == "" then none else some p
      | none => none
    else none
  | _ => none

/-- extractGeneratedImagePrompts (chat/route.ts lines 53-77). -/
def extractGeneratedImagePrompts (messages : List UIMessage) : List String :=
  (allParts messages).filterMap partPrompt

/-! ### Image generation pipeline for attachments
(generateImageForAttachment, chat/route.ts lines 81-208) -/

/-- Outcome of one fetch to the image service, as the code observes it:
a 2xx response whose body may or may not carry data[0].b64_json, a non-2xx
response with status and error body, or a thrown network error. -/
inductive FetchResult
  | ok (b64 : Option String)
  | httpErr (status : Nat) (body : String)
  | netErr
  deriving DecidableEq

/-- One (model, quality, encoding) request configuration.  The source
hardcodes the three attempts inline; the fields below are exactly what
varies between the three request bodies and the attachment they build. -/
structure Candidate where
  model : String
  promptSuffix : String
  quality : String
  outputFormat : Option String
  ext : String
  mime : String
  deriving DecidableEq

/-- The fixed candidate order of generateImageForAttachment:
gpt-image-1 JPEG, then gpt-image-1 PNG (quality low), then dall-e-3. -/
def attachmentCandidates : List Candidate :=
  [ { model := "gpt-image-1", promptSuffix := ". Make it visually appealing."
      quality := "low", outputFormat := some "jpeg"
      ext := "jpg", mime := "image/jpeg" },
    { model := "gpt-image-1", promptSuffix := ". Simple, clean style."
      quality := "low", outputFormat := none
      ext := "png", mime := "image/png" },
    { model := "dall-e-3", promptSuffix := ". Simple, clean style."
      quality := "standard", outputFormat := none
      ext := "png", mime := "image/png" } ]

/-- prompt.slice(0, 30).replace of every non-alphanumeric char by "-". -/
def sanitizeChar (c : Char) : Char :=
  if c.isAlphanum then c else '-'

def mkGeneratedName (prompt ext : String) : String :=
  "generated-" ++ (⟨(prompt.data.take 30).map sanitizeChar⟩ : String) ++ "." ++ ext

/-- The base64-length ceiling 1_400_000 applied by every attempt
(~1.4MB base64, kept under the 2MB Edge Config body limit). -/
def sizeCeiling : Nat := 1400000

/-- What a single attempt block returns for a given fetch outcome: an
attachment exactly when the response is 2xx with a truthy b64_json whose
length is under the ceiling; every other outcome (HTTP error, network
error, missing payload, oversized payload) falls through to the next
attempt. -/
def attemptOutcome (prompt : String) (c : Candidate) (r : FetchResult) :
    Option TaskAttachment :=
  match r with
  | .ok (some b64) =>
    if !(b64 == "") && b64.data.length < sizeCeiling then
      some { name := mkGeneratedName prompt c.ext
             type := c.mime
             dataUrl := "data:" ++ c.mime ++ ";base64," ++ b64 }
    else none
  | _ => none

/-- The sequential attempt chain: each attempt issues exactly one fetch
(counted in the second component) and returns early on the first attempt
that yields an attachment. -/
def runCandidates (prompt : String) (oracle : Candidate → FetchResult) :
    List Candidate → Option TaskAttachment × Nat
  | [] => (none, 0)
  | c :: rest =>
    match attemptOutcome prompt c (oracle c) with
    | some a => (some a, 1)
    | none =>
      let r := runCandidates prompt oracle rest
      (r.1, r.2 + 1)

/-- generateImageForAttachment: returns null immediately when no API key is
configured, otherwise runs the three attempts in order.  The oracle stands
for the external image service; the Nat is the number of fetches issued. -/
def generateImageForAttachment (apiKey : Option String) (prompt : String)
    (oracle : Candidate → FetchResult) : Option TaskAttachment × Nat :=
  match apiKey with
  | none => (none, 0)
  | some _ => runCandidates prompt oracle attachmentCandidates

/-! ### POST /api/generate-image (generate-image/route.ts) -/

structure RouteImage where
  b64 : Option String
  url : Option String
  revised : Option String
  deriving DecidableEq

/-- Outcome of one fetch in the route: 2xx with optional data[0], non-2xx
with status and body, or a thrown network error with its message. -/
inductive RouteFetch
  | ok (img : Option RouteImage)
  | httpErr (status : Nat) (body : String)
  | netErr (msg : String)
  deriving DecidableEq

inductive RouteResponse
  | success (imageDataUrl : String) (description : String)
  | failure (status : Nat) (error : String)
  deriving DecidableEq

/-- The candidate-unavailable test of the route: status 404, or the error
body mentions model_not_found or Unknown parameter. -/
def modelUnavailable (status : Nat) (body : String) : Bool :=
  status == 404 || jsIncludes body "model_not_found"
    || jsIncludes body "Unknown parameter"

/-- The model loop of the route (generate-image/route.ts lines 26-101).
parseErr stands for the JSON.parse extraction of parsed.error.message from
the error body; prompt is the raw request prompt (used as the fallback
description).  Returns the response and the number of fetches issued. -/
def runRouteLoop (oracle : String → RouteFetch) (parseErr : String → Option String)
    (prompt : String) : List String → String → RouteResponse × Nat
  | [], lastError =>
    (.failure 502 (if lastError == "" then "Image generation failed" else lastError), 0)
  | m :: rest, _ =>
    match oracle m with
    | .ok (some img) =>
      (.success
        (match img.b64 with
         | some b => if b == "" then img.url.getD "" else "data:image/png;base64," ++ b
         | none => img.url.getD "")
        (img.revised.getD prompt), 1)
    | .ok none =>
      let r := runRouteLoop oracle parseErr prompt rest "No image in response"
      (r.1, r.2 + 1)
    | .httpErr status body =>
      if modelUnavailable status body then
        let r := runRouteLoop oracle parseErr prompt rest (m ++ " not available")
        (r.1, r.2 + 1)
      else
        (.failure 502 ((parseErr body).getD ("OpenAI API returned " ++ toString status)), 1)
    | .netErr msg => (.failure 500 msg, 1)

/-- The POST handler: key/prompt guards, then the fixed model order
gpt-image-1, dall-e-3 with lastError initially empty. -/
def postGenerateImage (apiKey : Option String) (prompt : String)
    (oracle : String → RouteFetch) (parseErr : String → Option String) :
    RouteResponse × Nat :=
  match apiKey with
  | none => (.failure 500 "Image generation not configured (missing OPENAI_API_KEY)", 0)
  | some _ =>
    if ((prompt.data.dropWhile Char.isWhitespace).reverse.dropWhile Char.isWhitespace).isEmpty then
      (.failure 400 "Prompt is required", 0)
    else runRouteLoop oracle parseErr prompt ["gpt-image-1", "dall-e-3"] ""

/-! ### Generated-image resolution inside create_task / update_task
(chat/route.ts lines 340-359 and 506-525) -/

/-- The attach_generated_images block shared by create_task.execute and
update_task.execute.  generatedImages and pendingImagePrompts are the
request-scoped caches; gen is generateImageForAttachment.  Returns the
images pushed by the block, the generatedImages cache after the block, and
the list of prompts handed to the pipeline (in order). -/
def resolveGeneratedImages (generatedImages : List TaskAttachment)
    (pendingImagePrompts : List String) (messages : List UIMessage)
    (gen : String → Option TaskAttachment) :
    List TaskAttachment × List TaskAttachment × List String :=
  if generatedImages.length > 0 then
    (generatedImages, generatedImages, [])
  else
    let promptSource :=
      if pendingImagePrompts.length > 0 then pendingImagePrompts
      else extractGeneratedImagePrompts messages
    match promptSource.getLast? with
    | none => ([], generatedImages, [])
    | some latestPrompt =>
      match gen latestPrompt with
      | some img => ([img], generatedImages ++ [img], [latestPrompt])
      | none => ([], generatedImages, [latestPrompt])

/-! ### Persistence guard (the try/catch around the store write in
create_task.execute, chat/route.ts lines 361-394, and update_task.execute,
lines 532-554) -/

/-- What a db.createTask call either returns or throws. -/
inductive CreateWrite
  | ok (t : Task)
  | err (msg : String)
  deriving DecidableEq

/-- What a db.updateTask call either returns (possibly null) or throws. -/
inductive UpdateWrite
  | ok (t : Option Task)
  | err (msg : String)
  deriving DecidableEq

/-- The returned function result of a successful create_task call. -/
structure CreateOk where
  task : Task
  attachedImages : Nat
  note : Option String
  deriving DecidableEq

/-- The returned function result of a successful update_task call. -/
structure UpdateOk where
  task : Option Task
  attachedImages : Nat
  note : Option String
  deriving DecidableEq

/-- String(err).includes("entity_too_large") || includes("2mb"). -/
def isTooLargeErr (e : String) : Bool :=
  jsIncludes e "entity_too_large" || jsIncludes e "2mb"

def dropNoteCreate : String :=
  "Image was too large to store. Task created without attachment."

def dropNoteUpdate : String :=
  "Image was too large to store. Task updated without attachment."

/-- The guarded store write of create_task.execute.  write stands for
db.createTask applied to the fixed title/description/priority/dueDate with
the given attachments field (none models an absent attachments key; the
source passes attachments only when the list is non-empty).  An uncaught
throw is the .error case; the Nat counts store writes issued. -/
def persistCreate (attachments : List TaskAttachment)
    (write : Option (List TaskAttachment) → CreateWrite) :
    Except String CreateOk × Nat :=
  match write (if attachments.length > 0 then some attachments else none) with
  | .ok t => (.ok ⟨t, attachments.length, none⟩, 1)
  | .err e =>
    if attachments.length > 0 && isTooLargeErr e then
      match write none with
      | .ok t => (.ok ⟨t, 0, some dropNoteCreate⟩, 2)
      | .err e2 => (.error e2, 2)
    else (.error e, 1)

/-- The guarded store write of update_task.execute.  write stands for
db.updateTask match.id applied to an updates record; the retry deletes the
attachments key from the same record. -/
def persistUpdate (newImages : List TaskAttachment) (updates : TaskUpdates)
    (write : TaskUpdates → UpdateWrite) : Except String UpdateOk × Nat :=
  match write updates with
  | .ok t => (.ok ⟨t, newImages.length, none⟩, 1)
  | .err e =>
    if newImages.length > 0 && isTooLargeErr e then
      match write { updates with attachments := none } with
      | .ok t => (.ok ⟨t, 0, some dropNoteUpdate⟩, 2)
      | .err e2 => (.error e2, 2)
    else (.error e, 1)

/-! ### Target resolution by title search (update_task.execute lines
483-491 and delete_task.execute lines 566-578) -/

/-- The predicate of the .find call:
t.title.toLowerCase().includes(title_search.toLowerCase()). -/
def titleMatchP (search : String) (t : Task) : Bool :=
  jsIncludes (jsToLower t.title) (jsToLower search)

/-- all.find(...) over the list returned by db.getAllTasks (store order). -/
def findTaskBySearch (all : List Task) (search : String) : Option Task :=
  all.find? (titleMatchP search)

inductive ToolLookup
  | ok (id : String) (title : String)
  | notFound (error : String)
  deriving DecidableEq

def notFoundMsg (search : String) : String :=
  "No task found matching \"" ++ search ++ "\""

/-- Target resolution of update_task.execute: the structured not-found
result (success:false plus error) is a returned value, not a throw. -/
def updateTaskResolve (all : List Task) (search : String) : ToolLookup :=
  match findTaskBySearch all search with
  | none => .notFound (notFoundMsg search)
  | some t => .ok t.id t.title

/-- Target resolution of delete_task.execute (same find, same miss shape). -/
def deleteTaskResolve (all : List Task) (search : String) : ToolLookup :=
  match findTaskBySearch all search with
  | none => .notFound (notFoundMsg search)
  | some t => .ok t.id t.title

/-- The attachment merge of update_task.execute (lines 527-530): when new
images were resolved, updates.attachments is set to the task's existing
attachments followed by the new ones (match.attachments ?? [] - the
embedded Task keeps attachments as a plain list, so ?? [] is the
identity). -/
def mergeAttachments (target : Task) (newImages : List TaskAttachment)
    (updates : TaskUpdates) : TaskUpdates :=
  if newImages.length > 0 then
    { updates with attachments := some (target.attachments ++ newImages) }
  else updates

/-! ### Conversation orchestrator step ceiling -/

/-- One LLM round either ends in plain text or requests tool calls. -/
inductive ModelResponse
  | finalText
  | toolCalls
  deriving DecidableEq

/-- Modelled from the spec: the stopWhen condition stepCountIs(20) passed
to streamText (chat/route.ts line 619).  The loop that consults it lives in
the external ai SDK, not in this repository; per the spec the orchestrator
"repeats until the LLM returns a plain answer or a step budget is
exhausted" with "a hard iteration ceiling (fixed budget, e.g. 20 rounds)".
stepCountIs n halts the loop once n steps have run. -/
def stepCountIs (n : Nat) (steps : Nat) : Bool :=
  decide (n ≤ steps)

/-- Modelled from the spec: the AwaitingModel/ExecutingFunctions loop of
the Conversation Orchestrator.  llm gives the outcome of each round (indexed
by the number of completed rounds); fuel is an arbitrary bound making the
recursion structural - the theorem about this loop holds for every fuel, so
the ceiling is enforced by the stopWhen condition, not by fuel.  Returns
the total number of LLM rounds run. -/
def runLoop (llm : Nat → ModelResponse) (ceiling : Nat) :
    Nat → Nat → Nat
  | 0, steps => steps
  | fuel + 1, steps =>
    match llm steps with
    | .finalText => steps + 1
    | .toolCalls =>
      if stepCountIs ceiling (steps + 1) then steps + 1
      else runLoop llm ceiling fuel (steps + 1)

/-- The orchestrator as configured by the route: stopWhen stepCountIs(20). -/
def orchestratorRounds (llm : Nat → ModelResponse) (fuel : Nat) : Nat :=
  runLoop llm 20 fuel 0

/-! ### Concrete instances used by witnesses and counterexamples -/

def sampleAttachment : TaskAttachment :=
  { name := "logo.png", type := "image/png", dataUrl := "data:image/png;base64,iVBOR" }

def sampleTask : Task :=
  { id := "t1", title := "Fix logo", description := none, priority := .medium
    status := .todo, dueDate := none, attachments := []
    createdAt := "2026-10-01T00:00:00.000Z", updatedAt := "2026-10-01T00:00:00.000Z" }

/-- A task whose dueDate is present but is the empty string: JS truthiness
makes the overdue filter skip it even though "" < today holds. -/
def emptyDueTask : Task :=
  { id := "t2", title := "Pay rent", description := none, priority := .medium
    status := .todo, dueDate := some "", attachments := []
    createdAt := "2026-10-01T00:00:00.000Z", updatedAt := "2026-10-01T00:00:00.000Z" }

/-- An image service that rate-limits the first attachment candidate (a
non-recoverable error class per the spec) and succeeds on the second. -/
def rateLimitThenOk : Candidate → FetchResult := fun c =>
  if c.outputFormat == some "jpeg" then .httpErr 429 "Rate limit exceeded"
  else .ok (some "abc")

/-- An image service on which every attempt fails with a network error. -/
def allNetErr : Candidate → FetchResult := fun _ => .netErr

/-- A generation pipeline stub that always fails. -/
def noGen : String → Option TaskAttachment := fun _ => none

/-- A conversation model that keeps requesting tool calls forever. -/
def alwaysToolCalls : Nat → ModelResponse := fun _ => .toolCalls

/-- A store write that rejects any payload carrying attachments as too
large and accepts the attachment-free retry. -/
def tooLargeCreateWrite : Option (List TaskAttachment) → CreateWrite := fun o =>
  match o with
  | some _ => .err "Error: Edge Config write failed: entity_too_large"
  | none => .ok sampleTask

/-- The analogous update write: rejects updates carrying attachments. -/
def tooLargeUpdateWrite : TaskUpdates → UpdateWrite := fun u =>
  match u.attachments with
  | some _ => .err "Error: Edge Config write failed: entity_too_large"
  | none => .ok (some sampleTask)

/-- A request oracle for the /api/generate-image route: gpt-image-1 is
rate-limited, dall-e-3 would succeed. -/
def routeRateLimit : String → RouteFetch := fun m =>
  if m == "gpt-image-1" then .httpErr 429 "Rate limit exceeded"
  else .ok (some { b64 := some "abc", url := none, revised := none })

def noParse : String → Option String := fun _ => none

/-- A chat history holding a single file part that declares an image
mediaType but carries no url. -/
def urlLessImageMessages : List UIMessage :=
  [ { parts := [.file (some "image/png") none none none] } ]

/-- Claim-side predicate (from the claim's words, for the counterexample):
a file part whose mediaType starts with "image/", with no condition on the
url. -/
def isImageFilePartClaim : MessagePart → Bool
  | .file (some mt) _ _ _ => jsStartsWith mt "image/"
  | _ => false

/-- Amended-claim predicate: a file part whose mediaType starts with
"image/" and whose url is present and non-empty. -/
def isImagePartWithUrl : MessagePart → Bool
  | .file (some mt) (some u) _ _ => jsStartsWith mt "image/" && !(u == "")
  | _ => false

/-- The attachment built from a collected file part (junk off the
collected domain; only applied under the isImagePartWithUrl filter). -/
def filePartAttachment : MessagePart → TaskAttachment
  | .file (some mt) (some u) fn nm =>
    { name := fn.getD (nm.getD ("image." ++ fileExt mt)), type := mt, dataUrl := u }
  | _ => { name := "", type := "", dataUrl := "" }

/-- A task due long before 2026-10-11 and still todo. -/
def overdueSampleTask : Task :=
  { id := "t3", title := "File taxes", description := none, priority := .high
    status := .todo, dueDate := some "2026-01-01", attachments := []
    createdAt := "2025-12-01T00:00:00.000Z", updatedAt := "2025-12-01T00:00:00.000Z" }

/-- A create_task input with no due date. -/
def noDueInput : CreateTaskInput :=
  { title := "Water plants", description := none, priority := none
    dueDate := none, attachments := none }

/-- An updates record that only sets status := done. -/
def statusDoneUpdates : TaskUpdates :=
  { noUpdates with status := some .done }

/-- An updates record carrying one attachment (a merged update payload). -/
def attachSampleUpdates : TaskUpdates :=
  { noUpdates with attachments := some [sampleAttachment] }

/-! ## Helper lemmas -/

theorem isPrefixOf_eq_true_iff (l₁ l₂ : List Char) :
    l₁.isPrefixOf l₂ = true ↔ ∃ t, l₂ = l₁ ++ t := by
  induction l₁ generalizing l₂ with
  | nil => simp [List.isPrefixOf]
  | cons a as ih =>
    cases l₂ with
    | nil => simp [List.isPrefixOf]
    | cons b bs =>
      simp only [List.isPrefixOf, Bool.and_eq_true, beq_iff_eq, ih, List.cons_append,
        List.cons.injEq]
      constructor
      · rintro ⟨rfl, t, rfl⟩
        exact ⟨t, rfl, rfl⟩
      · rintro ⟨t, rfl, rfl⟩
        exact ⟨rfl, t, rfl⟩

/-- containsSub is exactly substring occurrence. -/
theorem containsSub_iff (hay needle : List Char) :
    containsSub hay needle = true ↔ ∃ p q, hay = p ++ needle ++ q := by
  induction hay with
  | nil =>
    simp only [containsSub, List.isEmpty_iff]
    constructor
    · rintro rfl
      exact ⟨[], [], rfl⟩
    · rintro ⟨p, q, h⟩
      cases p <;> cases needle <;> simp_all
  | cons c t ih =>
    simp only [containsSub, Bool.or_eq_true, isPrefixOf_eq_true_iff, ih]
    constructor
    · rintro (⟨r, hr⟩ | ⟨p, q, rfl⟩)
      · exact ⟨[], r, by simpa using hr⟩
      · exact ⟨c :: p, q, rfl⟩
    · rintro ⟨p, q, h⟩
      cases p with
      | nil =>
        left
        exact ⟨q, by simpa using h⟩
      | cons x xs =>
        right
        simp only [List.cons_append] at h
        injection h with h1 h2
        subst h2
        exact ⟨xs, q, rfl⟩

theorem mem_insertLe (le : Task → Task → Bool) (a x : Task) (l : List Task) :
    x ∈ insertLe le a l ↔ x = a ∨ x ∈ l := by
  induction l with
  | nil => simp [insertLe]
  | cons b bs ih =>
    simp only [insertLe]
    by_cases h : le a b = true
    · simp [h]
    · simp only [Bool.not_eq_true] at h
      simp [h, ih]
      tauto

theorem mem_sortLe (le : Task → Task → Bool) (x : Task) (l : List Task) :
    x ∈ sortLe le l ↔ x ∈ l := by
  induction l with
  | nil => simp [sortLe]
  | cons a as ih => simp [sortLe, mem_insertLe, ih]

theorem find?_eq_head?_dropWhile (p : Task → Bool) (l : List Task) :
    l.find? p = (l.dropWhile fun a => !p a).head? := by
  induction l with
  | nil => rfl
  | cons a as ih =>
    by_cases h : p a
    · simp [List.find?_cons, List.dropWhile, h]
    · simp only [Bool.not_eq_true] at h
      simp [List.find?_cons, List.dropWhile, h, ih]

theorem partImage_eq (part : MessagePart) :
    partImage part =
      if isImagePartWithUrl part then some (filePartAttachment part) else none := by
  cases part with
  | file mt u fn nm =>
    cases mt with
    | none => cases u <;> rfl
    | some m =>
      cases u with
      | none => rfl
      | some v =>
        simp only [partImage, isImagePartWithUrl, filePartAttachment]
  | text s => rfl
  | toolPart a b c d e => rfl
  | other => rfl

theorem filterMap_partImage (l : List MessagePart) :
    l.filterMap partImage = (l.filter isImagePartWithUrl).map filePartAttachment := by
  induction l with
  | nil => rfl
  | cons part rest ih =>
    rw [List.filterMap_cons, List.filter_cons, partImage_eq]
    by_cases h : isImagePartWithUrl part <;> simp [h, ih]

theorem runCandidates_fst (prompt : String) (oracle : Candidate → FetchResult)
    (cs : List Candidate) :
    (runCandidates prompt oracle cs).1
      = ((cs.find? fun c => (attemptOutcome prompt c (oracle c)).isSome).bind
          fun c => attemptOutcome prompt c (oracle c)) := by
  induction cs with
  | nil => rfl
  | cons c rest ih =>
    simp only [runCandidates, List.find?_cons]
    cases h : attemptOutcome prompt c (oracle c) with
    | some a => simp [h]
    | none => simp [h, ih]

theorem runCandidates_snd_le (prompt : String) (oracle : Candidate → FetchResult)
    (cs : List Candidate) :
    (runCandidates prompt oracle cs).2 ≤ cs.length := by
  induction cs with
  | nil => simp [runCandidates]
  | cons c rest ih =>
    simp only [runCandidates, List.length_cons]
    cases h : attemptOutcome prompt c (oracle c) with
    | some a => simp
    | none => simpa using Nat.add_le_add_right ih 1

theorem runLoop_le (llm : Nat → ModelResponse) (ceiling : Nat) (fuel steps : Nat)
    (h : steps < ceiling) : runLoop llm ceiling fuel steps ≤ ceiling := by
  induction fuel generalizing steps with
  | zero => exact Nat.le_of_lt h
  | succ n ih =>
    simp only [runLoop]
    cases llm steps with
    | finalText => exact h
    | toolCalls =>
      by_cases hstop : stepCountIs ceiling (steps + 1) = true
      · simp [hstop]
        exact h
      · simp only [hstop, if_false]
        simp only [stepCountIs, decide_eq_true_eq] at hstop
        exact ih (steps + 1) (Nat.lt_of_not_le hstop)

/-- overdueP unpacked: present non-empty dueDate below today, and a status
other than done (the status enum has exactly todo, in_progress, done). -/
theorem overdueP_iff (today : String) (t : Task) :
    overdueP today t = true ↔
      t.status ≠ Status.done ∧ t.dueDate.getD "" ≠ "" ∧
      jsStrLt (t.dueDate.getD "") today = true := by
  unfold overdueP
  cases hdd : t.dueDate with
  | none => simp
  | some d => cases hst : t.status <;> simp [hst]

/-! ## Claim theorems -/

/-- C5: for every conversation (every round outcome function) and however
much fuel the loop is given, the orchestrator configured with stopWhen
stepCountIs(20) never runs more than 20 LLM rounds. -/
theorem orchestrator_round_ceiling (llm : Nat → ModelResponse) (fuel : Nat) :
    orchestratorRounds llm fuel ≤ 20 :=
  runLoop_le llm 20 fuel 0 (by decide)

/-- C5 witness: a model that requests tool calls forever is still cut off
at 20 rounds. -/
theorem orchestrator_round_ceiling_witness :
    orchestratorRounds alwaysToolCalls 1000 ≤ 20 :=
  orchestrator_round_ceiling alwaysToolCalls 1000

/-- C6 counterexample: a stored task whose dueDate is present but equal to
the empty string satisfies the claim's membership predicate (its dueDate
compares below today and its status is not done) yet the overdue filter
does not return it: the JS guard t.dueDate treats the empty string as
falsy. -/
theorem overdue_empty_due_cex :
    emptyDueTask.dueDate = some "" ∧
    jsStrLt "" "2026-10-11" = true ∧
    emptyDueTask.status ≠ Status.done ∧
    emptyDueTask ∈ [emptyDueTask] ∧
    emptyDueTask ∉ getOverdueTasks "2026-10-11" [emptyDueTask] := by
  decide

/-- C6 (amended): the overdue filter returns exactly the tasks whose
dueDate is present, non-empty and lexicographically below today, with
status ≠ done; and a task created with no due date is never returned by
the overdue filter. -/
theorem overdue_filter_exact (today : String) (all : List Task) (t : Task)
    (input : CreateTaskInput) (id now : String) (hd : input.dueDate = none) :
    (t ∈ getOverdueTasks today all ↔
      t ∈ all ∧ t.status ≠ Status.done ∧
      t.dueDate.getD "" ≠ "" ∧ jsStrLt (t.dueDate.getD "") today = true) ∧
    createTask input id now ∉ getOverdueTasks today all := by
  constructor
  · rw [getOverdueTasks, mem_sortLe, List.mem_filter, overdueP_iff]
  · rw [getOverdueTasks, mem_sortLe, List.mem_filter]
    rintro ⟨-, hp⟩
    rw [overdueP_iff] at hp
    have hdd : (createTask input id now).dueDate = none := by
      simp [createTask, hd]
    simp [hdd] at hp

/-- C6 witness: a concrete task due 2026-01-01 and still todo is overdue
on 2026-10-11, and a task created without a due date is not. -/
theorem overdue_filter_exact_witness :
    noDueInput.dueDate = none ∧
    ((overdueSampleTask ∈ getOverdueTasks "2026-10-11" [overdueSampleTask] ↔
      overdueSampleTask ∈ [overdueSampleTask] ∧
      overdueSampleTask.status ≠ Status.done ∧
      overdueSampleTask.dueDate.getD "" ≠ "" ∧
      jsStrLt (overdueSampleTask.dueDate.getD "") "2026-10-11" = true) ∧
    createTask noDueInput "i1" "2026-10-11T00:00:00.000Z"
      ∉ getOverdueTasks "2026-10-11" [overdueSampleTask]) :=
  ⟨rfl, overdue_filter_exact "2026-10-11" [overdueSampleTask] overdueSampleTask
    noDueInput "i1" "2026-10-11T00:00:00.000Z" rfl⟩

/-- C8: when update_task resolved new images, the updates record carries
the task's existing attachments followed by the new ones, db.updateTask
reports that merged task, and the stored attachment list keeps every prior
attachment in place (the existing attachments are exactly the prefix of
the result). -/
theorem update_attachments_append (target : Task) (newImages : List TaskAttachment)
    (updates : TaskUpdates) (store : Store) (now : String)
    (hnew : newImages ≠ []) (hstore : store target.id = some target) :
    (mergeAttachments target newImages updates).attachments
        = some (target.attachments ++ newImages) ∧
    (updateTask store target.id (mergeAttachments target newImages updates) now).1
        = some (applyUpdates target (mergeAttachments target newImages updates) now) ∧
    (applyUpdates target (mergeAttachments target newImages updates) now).attachments
        = target.attachments ++ newImages ∧
    List.take target.attachments.length
        (applyUpdates target (mergeAttachments target newImages updates) now).attachments
      = target.attachments := by
  have hlen : 0 < newImages.length := List.length_pos.mpr hnew
  have hmerge : (mergeAttachments target newImages updates).attachments
      = some (target.attachments ++ newImages) := by
    simp [mergeAttachments, hlen]
  refine ⟨hmerge, ?_, ?_, ?_⟩
  · simp [updateTask, hstore]
  · simp [applyUpdates, hmerge]
  · simp [applyUpdates, hmerge, List.take_left]

/-- C8 witness: merging one new image onto the sample task appends it. -/
theorem update_attachments_append_witness :
    [sampleAttachment] ≠ ([] : List TaskAttachment) ∧
    storeSet emptyStore sampleTask sampleTask.id = some sampleTask ∧
    ((mergeAttachments sampleTask [sampleAttachment] noUpdates).attachments
        = some (sampleTask.attachments ++ [sampleAttachment]) ∧
     (updateTask (storeSet emptyStore sampleTask) sampleTask.id
        (mergeAttachments sampleTask [sampleAttachment] noUpdates)
        "2026-10-11T00:00:00.000Z").1
        = some (applyUpdates sampleTask
            (mergeAttachments sampleTask [sampleAttachment] noUpdates)
            "2026-10-11T00:00:00.000Z") ∧
     (applyUpdates sampleTask (mergeAttachments sampleTask [sampleAttachment] noUpdates)
        "2026-10-11T00:00:00.000Z").attachments
        = sampleTask.attachments ++ [sampleAttachment] ∧
     List.take sampleTask.attachments.length
        (applyUpdates sampleTask (mergeAttachments sampleTask [sampleAttachment] noUpdates)
          "2026-10-11T00:00:00.000Z").attachments
        = sampleTask.attachments) :=
  ⟨by decide, by decide,
   update_attachments_append sampleTask [sampleAttachment] noUpdates
     (storeSet emptyStore sampleTask) "2026-10-11T00:00:00.000Z"
     (by decide) (by decide)⟩

/-- C10: db.updateTask returns null without modifying the store when the
id is absent; otherwise it stores and returns the merged task, which keeps
id and createdAt, stamps updatedAt with now, leaves every field whose
update key is absent unchanged, and leaves every other store key
untouched. -/
theorem updateTask_frame (store : Store) (id now : String) (u : TaskUpdates)
    (t : Task) (j : String) :
    (store id = none → updateTask store id u now = (none, store)) ∧
    (store id = some t →
      (updateTask store id u now).1 = some (applyUpdates t u now) ∧
      (updateTask store id u now).2 = storeSet store (applyUpdates t u now) ∧
      (applyUpdates t u now).id = t.id ∧
      (applyUpdates t u now).createdAt = t.createdAt ∧
      (applyUpdates t u now).updatedAt = now ∧
      (u.title = none → (applyUpdates t u now).title = t.title) ∧
      (u.description = none → (applyUpdates t u now).description = t.description) ∧
      (u.priority = none → (applyUpdates t u now).priority = t.priority) ∧
      (u.status = none → (applyUpdates t u now).status = t.status) ∧
      (u.dueDate = none → (applyUpdates t u now).dueDate = t.dueDate) ∧
      (u.attachments = none → (applyUpdates t u now).attachments = t.attachments) ∧
      (j ≠ t.id → (updateTask store id u now).2 j = store j)) := by
  constructor
  · intro h
    simp [updateTask, h]
  · intro h
    refine ⟨by simp [updateTask, h], by simp [updateTask, h], rfl, rfl, rfl,
      ?_, ?_, ?_, ?_, ?_, ?_, ?_⟩
    · intro hu; simp [applyUpdates, hu]
    · intro hu; simp [applyUpdates, hu]
    · intro hu; simp [applyUpdates, hu]
    · intro hu; simp [applyUpdates, hu]
    · intro hu; simp [applyUpdates, hu]
    · intro hu; simp [applyUpdates, hu]
    · intro hj
      simp [updateTask, h, storeSet, applyUpdates, hj]

/-- C10 witness: updating the status of the stored sample task preserves
id, createdAt and the untouched fields. -/
theorem updateTask_frame_witness :
    storeSet emptyStore sampleTask "t1" = some sampleTask ∧
    ((updateTask (storeSet emptyStore sampleTask) "t1" statusDoneUpdates
        "2026-10-11T00:00:00.000Z").1
      = some (applyUpdates sampleTask statusDoneUpdates "2026-10-11T00:00:00.000Z") ∧
     (applyUpdates sampleTask statusDoneUpdates "2026-10-11T00:00:00.000Z").createdAt
      = sampleTask.createdAt ∧
     (applyUpdates sampleTask statusDoneUpdates "2026-10-11T00:00:00.000Z").title
      = sampleTask.title ∧
     (updateTask (storeSet emptyStore sampleTask) "t1" statusDoneUpdates
        "2026-10-11T00:00:00.000Z").2 "elsewhere"
      = storeSet emptyStore sampleTask "elsewhere") :=
  have h := (updateTask_frame (storeSet emptyStore sampleTask) "t1"
    "2026-10-11T00:00:00.000Z" statusDoneUpdates sampleTask "elsewhere").2 (by decide)
  ⟨by decide, h.1, h.2.2.2.1, h.2.2.2.2.2.1 rfl, h.2.2.2.2.2.2.2.2.2.2.2 (by decide)⟩

/-- C1: with an API key configured, generateImageForAttachment returns the
output of the first candidate in the fixed three-element list whose fetch
succeeds with a truthy payload under the ceiling (a failed or oversized
attempt yields none for its candidate, so the find? skips it and the chain
advances); it never issues more fetches than the fixed list has
candidates, and when every candidate's attempt yields no fitting result
the pipeline returns none after exactly the three fetches. -/
theorem generate_image_first_fit (key prompt : String)
    (oracle : Candidate → FetchResult) :
    (generateImageForAttachment (some key) prompt oracle).1
      = ((attachmentCandidates.find? fun c =>
            (attemptOutcome prompt c (oracle c)).isSome).bind
          fun c => attemptOutcome prompt c (oracle c)) ∧
    (generateImageForAttachment (some key) prompt oracle).2
      ≤ attachmentCandidates.length ∧
    ((∀ c ∈ attachmentCandidates, attemptOutcome prompt c (oracle c) = none) →
      generateImageForAttachment (some key) prompt oracle = (none, 3)) := by
  refine ⟨runCandidates_fst prompt oracle attachmentCandidates,
    runCandidates_snd_le prompt oracle attachmentCandidates, ?_⟩
  intro hall
  simp only [attachmentCandidates, List.forall_mem_cons, List.forall_mem_ne,
    List.not_mem_nil, false_implies, and_true] at hall
  obtain ⟨h1, h2, h3⟩ := hall
  show runCandidates prompt oracle attachmentCandidates = (none, 3)
  simp [attachmentCandidates, runCandidates, h1, h2, h3]

/-- C1 witness: a service failing every fetch with a network error
exhausts the three candidates and yields none. -/
theorem generate_image_first_fit_witness :
    generateImageForAttachment (some "sk") "a cat" allNetErr = (none, 3) :=
  (generate_image_first_fit "sk" "a cat" allNetErr).2.2 (by decide)

/-- C2: for a create_task or update_task write that includes resolved
images, a store failure whose message marks the payload too large
(entity_too_large / 2mb) is retried exactly once with the attachments
field removed and the returned result carries the image-dropped note,
while a failure with any other message is rethrown after exactly one
write. -/
theorem persistence_guard_retry (atts newImages : List TaskAttachment)
    (updates : TaskUpdates) (wc : Option (List TaskAttachment) → CreateWrite)
    (wu : TaskUpdates → UpdateWrite) (e eu : String) (t : Task) (tu : Option Task)
    (hatts : atts ≠ []) (hnew : newImages ≠ [])
    (hc : wc (some atts) = .err e) (hcr : wc none = .ok t)
    (hu : wu updates = .err eu)
    (hur : wu { updates with attachments := none } = .ok tu) :
    (isTooLargeErr e = true →
      persistCreate atts wc = (.ok ⟨t, 0, some dropNoteCreate⟩, 2)) ∧
    (isTooLargeErr e = false → persistCreate atts wc = (.error e, 1)) ∧
    (isTooLargeErr eu = true →
      persistUpdate newImages updates wu = (.ok ⟨tu, 0, some dropNoteUpdate⟩, 2)) ∧
    (isTooLargeErr eu = false → persistUpdate newImages updates wu = (.error eu, 1)) := by
  have hlenc : 0 < atts.length := List.length_pos.mpr hatts
  have hlenu : 0 < newImages.length := List.length_pos.mpr hnew
  refine ⟨?_, ?_, ?_, ?_⟩
  · intro hlarge
    simp [persistCreate, hlenc, hc, hcr, hlarge]
  · intro hlarge
    simp [persistCreate, hlenc, hc, hlarge]
  · intro hlarge
    simp [persistUpdate, hlenu, hu, hur, hlarge]
  · intro hlarge
    simp [persistUpdate, hlenu, hu, hlarge]

/-- C2 witness: against a store rejecting attachment payloads as
entity_too_large, both guarded writes retry once without attachments and
return the image-dropped note. -/
theorem persistence_guard_retry_witness :
    persistCreate [sampleAttachment] tooLargeCreateWrite
      = (.ok ⟨sampleTask, 0, some dropNoteCreate⟩, 2) ∧
    persistUpdate [sampleAttachment] attachSampleUpdates tooLargeUpdateWrite
      = (.ok ⟨some sampleTask, 0, some dropNoteUpdate⟩, 2) :=
  have h := persistence_guard_retry [sampleAttachment] [sampleAttachment]
    attachSampleUpdates tooLargeCreateWrite tooLargeUpdateWrite
    "Error: Edge Config write failed: entity_too_large"
    "Error: Edge Config write failed: entity_too_large"
    sampleTask (some sampleTask)
    (by decide) (by decide) (by decide) (by decide) (by decide) (by decide)
  ⟨h.1 (by decide), h.2.2.1 (by decide)⟩

/-- C3: the attach_generated_images block resolves in the strict order
(a) images already generated and cached in this request, else (b) the last
prompt recorded by a generate_image call in this request, else (c) the
last successful generate_image prompt anywhere in the message history; the
third component lists the prompts handed to the generation pipeline, and a
failed generation adds no attachment and raises no error (the block still
returns). -/
theorem generated_attachment_resolution (gI : List TaskAttachment)
    (pp : List String) (messages : List UIMessage)
    (gen : String → Option TaskAttachment) (p q : String) (img : TaskAttachment) :
    (gI ≠ [] → resolveGeneratedImages gI pp messages gen = (gI, gI, [])) ∧
    (gI = [] → pp.getLast? = some p →
      (gen p = some img →
        resolveGeneratedImages gI pp messages gen = ([img], [img], [p])) ∧
      (gen p = none →
        resolveGeneratedImages gI pp messages gen = ([], [], [p]))) ∧
    (gI = [] → pp = [] →
      (extractGeneratedImagePrompts messages).getLast? = some q →
      (gen q = some img →
        resolveGeneratedImages gI pp messages gen = ([img], [img], [q])) ∧
      (gen q = none →
        resolveGeneratedImages gI pp messages gen = ([], [], [q]))) ∧
    (gI = [] → pp = [] → extractGeneratedImagePrompts messages = [] →
      resolveGeneratedImages gI pp messages gen = ([], [], [])) := by
  refine ⟨?_, ?_, ?_, ?_⟩
  · intro hne
    have hlen : 0 < gI.length := List.length_pos.mpr hne
    simp [resolveGeneratedImages, hlen]
  · rintro rfl hlast
    have hne : pp ≠ [] := by
      intro h
      rw [h] at hlast
      simp at hlast
    have hlen : 0 < pp.length := List.length_pos.mpr hne
    constructor
    · intro hgen
      simp [resolveGeneratedImages, hlen, hlast, hgen]
    · intro hgen
      simp [resolveGeneratedImages, hlen, hlast, hgen]
  · rintro rfl rfl hlast
    constructor
    · intro hgen
      simp [resolveGeneratedImages, hlast, hgen]
    · intro hgen
      simp [resolveGeneratedImages, hlast, hgen]
  · rintro rfl rfl hempty
    simp [resolveGeneratedImages, hempty]

/-- C3 witness: with no cached images, the last pending prompt of this
request is handed to the pipeline, and a failed generation attaches
nothing. -/
theorem generated_attachment_resolution_witness :
    resolveGeneratedImages [] ["a cat"] [] noGen = ([], [], ["a cat"]) :=
  ((generated_attachment_resolution [] ["a cat"] [] noGen "a cat" "x"
      sampleAttachment).2.1 rfl (by decide)).2 rfl

/-- C4 counterexample: candidate 1 of the attachment pipeline fails with a
429 rate limit - not a candidate-unavailable (404 / model_not_found /
Unknown parameter) error - yet the pipeline does not abort: it issues a
second fetch and returns candidate 2's output. -/
theorem pipeline_abort_cex :
    attachmentCandidates.head?.map rateLimitThenOk
      = some (.httpErr 429 "Rate limit exceeded") ∧
    modelUnavailable 429 "Rate limit exceeded" = false ∧
    (generateImageForAttachment (some "sk") "a cat" rateLimitThenOk).2 = 2 ∧
    (generateImageForAttachment (some "sk") "a cat" rateLimitThenOk).1 ≠ none := by
  decide

/-- C4 (amended): in the /api/generate-image route a candidate-unavailable
error (status 404, or a body naming model_not_found or Unknown parameter)
advances to the next model - a second fetch is issued - while any other
HTTP error aborts the loop immediately: a 502 is returned after exactly
one fetch and the second model is never tried; in the attachment pipeline
of the chat route, by contrast, any attempt that produces no fitting
image (every error class alike) advances to the next candidate. -/
theorem image_pipeline_error_classes (prompt body : String) (status : Nat)
    (oracle : String → RouteFetch) (parseErr : String → Option String)
    (cOracle : Candidate → FetchResult) (c : Candidate) (rest : List Candidate)
    (h1 : oracle "gpt-image-1" = .httpErr status body) :
    (modelUnavailable status body = false →
      runRouteLoop oracle parseErr prompt ["gpt-image-1", "dall-e-3"] ""
        = (.failure 502
            ((parseErr body).getD ("OpenAI API returned " ++ toString status)), 1)) ∧
    (modelUnavailable status body = true →
      (runRouteLoop oracle parseErr prompt ["gpt-image-1", "dall-e-3"] "").2 = 2) ∧
    (attemptOutcome prompt c (cOracle c) = none →
      runCandidates prompt cOracle (c :: rest)
        = ((runCandidates prompt cOracle rest).1,
           (runCandidates prompt cOracle rest).2 + 1)) := by
  refine ⟨?_, ?_, ?_⟩
  · intro hna
    simp [runRouteLoop, h1, hna]
  · intro hna
    simp only [runRouteLoop, h1, hna, if_true]
    cases hd : oracle "dall-e-3" with
    | ok img => cases img <;> simp [hd]
    | httpErr s b =>
      by_cases hv : modelUnavailable s b = true
      · simp [hd, hv]
      · simp [hd, hv]
    | netErr m => simp [hd]
  · intro hnone
    simp [runCandidates, hnone]

/-- C4 witness: a rate-limited first model aborts the route pipeline after
a single fetch with a 502; dall-e-3 is never consulted. -/
theorem image_pipeline_error_classes_witness :
    runRouteLoop routeRateLimit noParse "a cat" ["gpt-image-1", "dall-e-3"] ""
      = (.failure 502 ((noParse "Rate limit exceeded").getD
          ("OpenAI API returned " ++ toString 429)), 1) :=
  (image_pipeline_error_classes "a cat" "Rate limit exceeded" 429 routeRateLimit
    noParse allNetErr
    { model := "m", promptSuffix := "", quality := "", outputFormat := none
      ext := "", mime := "" }
    [] (by decide)).1 (by decide)

/-- C7: update_task and delete_task resolve their target as the first task
in store order whose lowercased title contains the lowercased search string
(equivalently the head of the list after dropping the non-matches); a
search that matches no task makes both return the structured not-found
result, a returned value rather than a thrown error. -/
theorem title_search_first_match (all : List Task) (search : String) :
    findTaskBySearch all search
      = (all.dropWhile fun u => !titleMatchP search u).head? ∧
    (findTaskBySearch all search = none ↔
      ∀ u ∈ all, titleMatchP search u = false) ∧
    (findTaskBySearch all search = none →
      updateTaskResolve all search = .notFound (notFoundMsg search) ∧
      deleteTaskResolve all search = .notFound (notFoundMsg search)) := by
  refine ⟨find?_eq_head?_dropWhile _ all, ?_, ?_⟩
  · rw [findTaskBySearch, List.find?_eq_none]
    simp
  · intro h
    constructor <;> simp [updateTaskResolve, deleteTaskResolve, h]

/-- C7 witness: a search matching no stored title yields the structured
not-found results from both tools. -/
theorem title_search_first_match_witness :
    deleteTaskResolve [sampleTask, overdueSampleTask] "groceries"
      = .notFound (notFoundMsg "groceries") ∧
    updateTaskResolve [sampleTask, overdueSampleTask] "groceries"
      = .notFound (notFoundMsg "groceries") :=
  have h := (title_search_first_match [sampleTask, overdueSampleTask]
    "groceries").2.2 (by decide)
  ⟨h.2, h.1⟩

/-- C9 counterexample: a conversation holding exactly one file part that
declares an image mediaType but carries no url: the claim counts it as a
collected part, but extractChatImages skips it because the code also
requires a truthy url. -/
theorem chat_images_cex :
    ((allParts urlLessImageMessages).filter isImageFilePartClaim).length = 1 ∧
    extractChatImages urlLessImageMessages = [] := by
  decide

/-- C9 (amended): extractChatImages collects exactly the file parts whose
mediaType starts with image/ and whose url is present and non-empty, in
conversation order; in particular a conversation containing no such
uploaded image yields the empty attachment list (the resolver is a total
function on message histories - it cannot throw). -/
theorem chat_images_exact (messages : List UIMessage) :
    extractChatImages messages
      = ((allParts messages).filter isImagePartWithUrl).map filePartAttachment ∧
    ((∀ part ∈ allParts messages, isImagePartWithUrl part = false) →
      extractChatImages messages = []) := by
  have hmain : extractChatImages messages
      = ((allParts messages).filter isImagePartWithUrl).map filePartAttachment :=
    filterMap_partImage (allParts messages)
  refine ⟨hmain, ?_⟩
  intro hall
  rw [hmain]
  have hnil : (allParts messages).filter isImagePartWithUrl = [] := by
    rw [List.filter_eq_nil_iff]
    intro a ha
    simp [hall a ha]
  rw [hnil]
  rfl

/-- C9 witness: a conversation with only text parts yields no
attachments. -/
theorem chat_images_exact_witness :
    extractChatImages [{ parts := [.text "hello"] }] = [] :=
  (chat_images_exact [{ parts := [.text "hello"] }]).2 (by decide)

end TaskFlow
